import Mathlib

/-!
# Verification of the `ChatClient` HTTP adapter (`code/chatui/chat_client.py`)

Shallow embedding of the client-side adapter: a `ChatClient` holds a server
URL and a model name and exposes four operations, each shaped into an
`HttpRequest` record exactly as the source builds its `requests.post` call:

* `search`                     — POST `<server_url>/documentSearch`, JSON body, timeout 30;
* `predict`                    — streaming POST `<server_url>/generate`, JSON body, timeout 10;
* `predict_with_system_prompt` — same with an extra leading `system` field;
* `upload_documents`           — per-file multipart POST `<server_url>/uploadDocument`,
  `verify=False`, timeout 120.

Python `float` sampling sliders are passed through opaquely (never computed
on), so they are modelled as `Rat`; Python `int` as `Int`; JSON dicts as
ordered association lists of `(String × JVal)` in source order.
-/

/-- A JSON value as marshalled by the client: the adapter only ever puts
strings, integers, floats and booleans into its request bodies. -/
inductive JVal where
  | str (s : String)
  | int (n : Int)
  | num (q : Rat)
  | bool (b : Bool)
deriving DecidableEq, Repr

/-- The client object: `__init__` stores `server_url`, `_model_name`, and the
constant `default_model = "local"` (`chat_client.py`, lines 29–33). -/
structure ChatClient where
  server_url : String
  _model_name : String
  default_model : String
deriving DecidableEq, Repr

/-- Constructor `ChatClient.__init__(server_url, model_name)`: pure field assignment. -/
def ChatClient.make (server_url : String) (model_name : String) : ChatClient :=
  { server_url := server_url
    _model_name := model_name
    default_model := "local" }

/-- The `model_name` property: returns `self._model_name` (lines 35–38). -/
def ChatClient.model_name (c : ChatClient) : String :=
  c._model_name

/-- The thirteen positional parameters of `predict` /
`predict_with_system_prompt` (minus `system`), with the source's names. -/
structure PredictParams where
  query : String
  mode : String
  local_model_id : String
  nvcf_model_id : String
  nim_model_ip : String
  nim_model_port : String
  nim_model_id : String
  temp_slider : Rat
  top_p_slider : Rat
  freq_pen_slider : Rat
  pres_pen_slider : Rat
  use_knowledge_base : Bool
  num_tokens : Int
deriving DecidableEq, Repr

/-- The JSON dict built by `predict` (lines 74–89), in source order. -/
def predictData (p : PredictParams) : List (String × JVal) :=
  [ ("question", .str p.query)
  , ("context", .str "")
  , ("use_knowledge_base", .bool p.use_knowledge_base)
  , ("num_tokens", .int p.num_tokens)
  , ("inference_mode", .str p.mode)
  , ("local_model_id", .str p.local_model_id)
  , ("nvcf_model_id", .str p.nvcf_model_id)
  , ("nim_model_ip", .str p.nim_model_ip)
  , ("nim_model_port", .str p.nim_model_port)
  , ("nim_model_id", .str p.nim_model_id)
  , ("temp", .num p.temp_slider)
  , ("top_p", .num p.top_p_slider)
  , ("freq_pen", .num p.freq_pen_slider)
  , ("pres_pen", .num p.pres_pen_slider) ]

/-- The JSON dict built by `predict_with_system_prompt` (lines 140–156), in
source order: the `system` entry first, then the same fourteen entries. -/
def predictWithSystemData (system : String) (p : PredictParams) : List (String × JVal) :=
  [ ("system", .str system)
  , ("question", .str p.query)
  , ("context", .str "")
  , ("use_knowledge_base", .bool p.use_knowledge_base)
  , ("num_tokens", .int p.num_tokens)
  , ("inference_mode", .str p.mode)
  , ("local_model_id", .str p.local_model_id)
  , ("nvcf_model_id", .str p.nvcf_model_id)
  , ("nim_model_ip", .str p.nim_model_ip)
  , ("nim_model_port", .str p.nim_model_port)
  , ("nim_model_id", .str p.nim_model_id)
  , ("temp", .num p.temp_slider)
  , ("top_p", .num p.top_p_slider)
  , ("freq_pen", .num p.freq_pen_slider)
  , ("pres_pen", .num p.pres_pen_slider) ]

/-- One HTTP request as handed to `requests.post`: method, URL, the
explicitly passed `headers=` dict (in source order; `[]` when the call passes
no `headers=` argument), the `json=` body, the `files=` part
(field name, file name, guessed MIME type — the open binary stream itself is
opaque), and the `stream=` / `verify=` / `timeout=` keyword arguments, with
the `requests` defaults `stream := false`, `verify := true` when a call omits
them. -/
structure HttpRequest where
  method : String
  url : String
  headers : List (String × String)
  jsonBody : Option (List (String × JVal))
  filesBody : Option (String × String × Option String)
  stream : Bool
  verify : Bool
  timeout : Nat
deriving DecidableEq, Repr

/-- The request shaped by `search` (lines 44–51):
`requests.post(url, headers=headers, json=data, timeout=30)`. -/
def searchRequest (c : ChatClient) (prompt : String) : HttpRequest :=
  { method := "POST"
    url := c.server_url ++ "/documentSearch"
    headers := [("accept", "application/json"), ("Content-Type", "application/json")]
    jsonBody := some [("content", .str prompt), ("num_docs", .int 4)]
    filesBody := none
    stream := false
    verify := true
    timeout := 30 }

/-- The request shaped by `predict` (lines 90–97):
`requests.post(url, stream=True, json=data, timeout=10)` — note that no
`headers=` argument is passed. -/
def predictRequest (c : ChatClient) (p : PredictParams) : HttpRequest :=
  { method := "POST"
    url := c.server_url ++ "/generate"
    headers := []
    jsonBody := some (predictData p)
    filesBody := none
    stream := true
    verify := true
    timeout := 10 }

/-- The request shaped by `predict_with_system_prompt` (lines 157–164):
`requests.post(url, stream=True, json=data, timeout=10)`, again with no
`headers=` argument. -/
def predictWithSystemRequest (c : ChatClient) (system : String) (p : PredictParams) :
    HttpRequest :=
  { method := "POST"
    url := c.server_url ++ "/generate"
    headers := []
    jsonBody := some (predictWithSystemData system p)
    filesBody := none
    stream := true
    verify := true
    timeout := 10 }

/-- The per-file request shaped by `upload_documents` (lines 103–120):
`requests.post(url, headers={"accept": "application/json"}, files=files,
verify=False, timeout=120)` with `files = {"file": (fpath, open(fpath, "rb"),
mime_type)}`. -/
def uploadFileRequest (c : ChatClient) (fpath : String) (mime_type : Option String) :
    HttpRequest :=
  { method := "POST"
    url := c.server_url ++ "/uploadDocument"
    headers := [("accept", "application/json")]
    jsonBody := none
    filesBody := some ("file", fpath, mime_type)
    stream := false
    verify := false
    timeout := 120 }

/-- The headers actually sent on the wire for a request, per the documented
behaviour of the `requests` library, which the source relies on: when a call
uses `json=` and sets no `Content-Type` itself, the library adds
`Content-Type: application/json`; when no accept header is given, the
session default accept header `*/*` applies (header names are
case-insensitive; the explicit dicts in the source spell them `accept` and
`Content-Type`, and we spell the library's default accept entry `accept`). -/
def effectiveHeaders (r : HttpRequest) : List (String × String) :=
  let hs :=
    if r.jsonBody.isSome && !(r.headers.any (fun h => h.1 == "Content-Type")) then
      r.headers ++ [("Content-Type", "application/json")]
    else r.headers
  if hs.any (fun h => h.1 == "accept") then hs
  else hs ++ [("accept", "*/*")]

deriving instance DecidableEq for Except

/-- Returns `true` exactly on `.ok`. -/
def Except.isOkB : Except ε α → Bool
  | .ok _ => true
  | .error _ => false

/-- Returns `true` exactly on `.error`. -/
def Except.isErrorB : Except ε α → Bool
  | .ok _ => false
  | .error _ => true

/-- An exception raised by `requests.post` itself: connection failure or
timeout (`requests` raises; the source installs no try/except). -/
inductive NetErr where
  | connectionError
  | timeoutError
deriving DecidableEq, Repr

/-- The remote side of one successful HTTP round-trip, as far as `search`
observes it: `req.json()` either returns a decoded JSON value or raises a
decode error (`.error ()`) when the body is not valid JSON. -/
structure NetResponse where
  jsonResult : Except Unit JVal
deriving Repr

/-- How a `search` call ends: the uncaught exception, or the decoded JSON. -/
inductive SearchErr where
  | requestFailed (e : NetErr)
  | jsonDecodeFailed
deriving DecidableEq, Repr

/-- Method `search` (lines 40–55), run against a network oracle `net` mapping the
issued request to its outcome. Returns the list of requests handed to
`requests.post` (the source makes exactly one call, no retry) and the
result: the body of the `with` block is `response = req.json(); return
response` — any exception from the POST or from `.json()` propagates, and a
decoded body is returned unmodified (the `typing.cast` is a static-only
no-op). -/
def search_run (c : ChatClient) (prompt : String)
    (net : HttpRequest → Except NetErr NetResponse) :
    List HttpRequest × Except SearchErr JVal :=
  let req := searchRequest c prompt
  ([req],
    match net req with
    | .error e => .error (.requestFailed e)
    | .ok resp =>
      match resp.jsonResult with
      | .error _ => .error .jsonDecodeFailed
      | .ok j => .ok j)

/-- The observable events of `upload_documents`: attempting to open a file
(`open(fpath, "rb")`), handing a POST to `requests.post`, and closing a file
stream. The source contains no close call (see the `pylint
consider-using-with` waiver on line 110), so its semantics never emits
`closeFile`; the constructor exists so that absence of release is a statable
fact. -/
inductive UploadEvent where
  | openFile (path : String)
  | postFile (path : String)
  | closeFile (path : String)
deriving DecidableEq, Repr

/-- Returns `true` exactly on `postFile` events. -/
def UploadEvent.isPost : UploadEvent → Bool
  | .postFile _ => true
  | _ => false

/-- Returns `true` exactly on `closeFile` events. -/
def UploadEvent.isClose : UploadEvent → Bool
  | .closeFile _ => true
  | _ => false

/-- The exception that ends an `upload_documents` run early: `open` raising
(e.g. `FileNotFoundError`) or `requests.post` raising. -/
inductive UploadErr where
  | ioError (path : String)
  | requestError (path : String)
deriving DecidableEq, Repr

/-- The environment an `upload_documents` run executes against: whether
`open(fpath, "rb")` succeeds for each path, the outcome of each POST
(`.error ()` models `requests.post` raising; `.ok status` its response,
whose status code the source discards), and the `mimetypes.guess_type`
table. -/
structure UploadEnv where
  openOk : String → Bool
  postResult : String → Except Unit Nat
  guessMime : String → Option String

/-- Method `upload_documents` (lines 101–120), transliterated per iteration of
`for fpath in file_paths`: guess the MIME type (no observable event), open
the file (uncaught exception on failure), hand the POST to `requests.post`
(uncaught exception on failure), and discard the response
(`_ = requests.post(...)`). No try/except surrounds the loop body, so a
raised exception aborts the whole loop; no close is ever performed. Returns
the event trace and the final outcome. -/
def upload_documents (env : UploadEnv) (file_paths : List String) :
    List UploadEvent × Except UploadErr Unit :=
  match file_paths with
  | [] => ([], .ok ())
  | fpath :: rest =>
    if env.openOk fpath then
      match env.postResult fpath with
      | .ok _ =>
        let r := upload_documents env rest
        (.openFile fpath :: .postFile fpath :: r.1, r.2)
      | .error _ =>
        ([.openFile fpath, .postFile fpath], .error (.requestError fpath))
    else
      ([.openFile fpath], .error (.ioError fpath))

/-- One step of strict UTF-8 decoding, as Python's `bytes.decode("UTF-8")`
performs it on each chunk (line 99): from the front of a byte list, read one
scalar value and return it with the remaining bytes, or `none` when the
front is not a well-formed sequence. ASCII bytes stand alone; `0xC2`–`0xDF`
lead a 2-byte sequence; `0xE0`–`0xEF` a 3-byte sequence; `0xF0`–`0xF4` a
4-byte sequence; each continuation byte must lie in `0x80`–`0xBF`; overlong
encodings (`0xC0`/`0xC1`, `0xE0` with second byte below `0xA0`, `0xF0` with
second byte below `0x90`), surrogates (`0xED` with second byte `0xA0` or
above), code points above `U+10FFFF` (`0xF4` with second byte `0x90` or
above, lead bytes above `0xF4`) and truncated sequences are rejected. -/
def decodeOne : List Nat → Option (Nat × List Nat)
  | [] => none
  | b0 :: rest =>
    if b0 < 0x80 then some (b0, rest)
    else if b0 < 0xC2 then none
    else if b0 < 0xE0 then
      match rest with
      | b1 :: rest1 =>
        if 0x80 ≤ b1 ∧ b1 < 0xC0 then
          some ((b0 - 0xC0) * 64 + (b1 - 0x80), rest1)
        else none
      | [] => none
    else if b0 < 0xF0 then
      match rest with
      | b1 :: b2 :: rest2 =>
        if (0x80 ≤ b1 ∧ b1 < 0xC0) ∧ (0x80 ≤ b2 ∧ b2 < 0xC0) ∧
            (b0 = 0xE0 → 0xA0 ≤ b1) ∧ (b0 = 0xED → b1 < 0xA0) then
          some ((b0 - 0xE0) * 4096 + (b1 - 0x80) * 64 + (b2 - 0x80), rest2)
        else none
      | _ => none
    else if b0 < 0xF5 then
      match rest with
      | b1 :: b2 :: b3 :: rest3 =>
        if (0x80 ≤ b1 ∧ b1 < 0xC0) ∧ (0x80 ≤ b2 ∧ b2 < 0xC0) ∧ (0x80 ≤ b3 ∧ b3 < 0xC0) ∧
            (b0 = 0xF0 → 0x90 ≤ b1) ∧ (b0 = 0xF4 → b1 < 0x90) then
          some ((b0 - 0xF0) * 262144 + (b1 - 0x80) * 4096 + (b2 - 0x80) * 64 + (b3 - 0x80), rest3)
        else none
      | _ => none
    else none

/-- A decoding step always consumes at least one byte. -/
theorem decodeOne_length (l : List Nat) (cr : Nat × List Nat)
    (h : decodeOne l = some cr) : cr.2.length < l.length := by
  match l with
  | [] => simp [decodeOne] at h
  | b0 :: rest =>
    simp only [decodeOne] at h
    repeat' split at h
    all_goals first
      | exact Option.noConfusion h
      | injection h with h2
    all_goals subst h2
    all_goals simp
    all_goals omega

/-- Strict UTF-8 decoding of a whole byte list into its list of Unicode
scalar values: repeated `decodeOne` until the list is exhausted. `none`
models `UnicodeDecodeError` being raised. -/
def utf8Decode (l : List Nat) : Option (List Nat) :=
  match l with
  | [] => some []
  | b0 :: rest =>
    match hdec : decodeOne (b0 :: rest) with
    | none => none
    | some (c, r) => (utf8Decode r).map (fun s => c :: s)
termination_by l.length
decreasing_by exact decodeOne_length _ _ hdec

/-- The successive 16-byte windows `iter_content(16)` cuts a response body
into: each chunk is the next (at most) 16 bytes, the last one possibly
shorter; an empty body yields no chunk. -/
def chunks16 (l : List Nat) : List (List Nat) :=
  match l with
  | [] => []
  | x :: xs => (x :: xs).take 16 :: chunks16 ((x :: xs).drop 16)
termination_by l.length
decreasing_by simp [List.length_drop]; omega

/-- The fragment sequence produced by `predict` / `predict_with_system_prompt`
from a fully received response body (lines 97–99 and 164–166):
`for chunk in req.iter_content(16): yield chunk.decode("UTF-8")` — one
fragment per successive 16-byte window, in arrival order, each window
decoded on its own (`none` where the decode raises). -/
def predictFragments (body : List Nat) : List (Option (List Nat)) :=
  match body with
  | [] => []
  | x :: xs => utf8Decode ((x :: xs).take 16) :: predictFragments ((x :: xs).drop 16)
termination_by body.length
decreasing_by simp [List.length_drop]; omega

/-- The requests handed to `requests.post` during an `upload_documents` run:
one `uploadFileRequest` per `postFile` event, in trace order. -/
def uploadRequests (c : ChatClient) (env : UploadEnv) (file_paths : List String) :
    List HttpRequest :=
  (upload_documents env file_paths).1.filterMap fun e =>
    match e with
    | .postFile p => some (uploadFileRequest c p (env.guessMime p))
    | _ => none

/-- The `model_name` property in state-passing form: the method body is
`return self._model_name` — no assignment to `self`, so the client comes
back unchanged. -/
def model_name_method (c : ChatClient) : String × ChatClient :=
  (c.model_name, c)

/-- Method `search` in state-passing form: the method body (lines 44–55) contains
no assignment to `self`, so the client comes back unchanged. -/
def search_method (c : ChatClient) (prompt : String)
    (net : HttpRequest → Except NetErr NetResponse) :
    (List HttpRequest × Except SearchErr JVal) × ChatClient :=
  (search_run c prompt net, c)

/-- Method `predict` in state-passing form: the method body (lines 57–99) contains
no assignment to `self`, so the client comes back unchanged. -/
def predict_method (c : ChatClient) (p : PredictParams) : HttpRequest × ChatClient :=
  (predictRequest c p, c)

/-- Method `predict_with_system_prompt` in state-passing form: the method body
(lines 122–166) contains no assignment to `self`. -/
def predict_with_system_method (c : ChatClient) (system : String) (p : PredictParams) :
    HttpRequest × ChatClient :=
  (predictWithSystemRequest c system p, c)

/-- Method `upload_documents` in state-passing form: the method body (lines
101–120) contains no assignment to `self`. -/
def upload_method (c : ChatClient) (env : UploadEnv) (file_paths : List String) :
    (List UploadEvent × Except UploadErr Unit) × ChatClient :=
  (upload_documents env file_paths, c)

/-- Concrete parameter record for instantiating theorems at one input. -/
def pStub : PredictParams :=
  { query := "q"
    mode := "local"
    local_model_id := "lm"
    nvcf_model_id := "nv"
    nim_model_ip := "ip"
    nim_model_port := "8000"
    nim_model_id := "nim"
    temp_slider := 0
    top_p_slider := 1
    freq_pen_slider := 0
    pres_pen_slider := 0
    use_knowledge_base := false
    num_tokens := 64 }

/-- A network oracle whose one response decodes to the JSON string "doc". -/
def netOkStub : HttpRequest → Except NetErr NetResponse :=
  fun _ => .ok ⟨.ok (.str "doc")⟩

/-- A network oracle that always times out. -/
def netFailStub : HttpRequest → Except NetErr NetResponse :=
  fun _ => .error .timeoutError

/-- An upload environment in which every open and every POST succeeds. -/
def envAllOk : UploadEnv :=
  { openOk := fun _ => true
    postResult := fun _ => .ok 200
    guessMime := fun _ => none }

/-- An upload environment in which `requests.post` raises on file "b" and
succeeds on every other file. -/
def envPostBFails : UploadEnv :=
  { openOk := fun _ => true
    postResult := fun p => if p = "b" then .error () else .ok 200
    guessMime := fun _ => none }

/-- The seventeen ASCII bytes of "Hello, world! Hi!": a body spanning two
16-byte windows. -/
def helloBytes : List Nat :=
  [72, 101, 108, 108, 111, 44, 32, 119, 111, 114, 108, 100, 33, 32, 72, 105, 33]

/-- A successful decoding step on a list is unaffected by bytes appended
after it: the same scalar value comes off, with the appended bytes left in
the remainder. -/
theorem decodeOne_append (l : List Nat) (cr : Nat × List Nat) (b : List Nat)
    (h : decodeOne l = some cr) : decodeOne (l ++ b) = some (cr.1, cr.2 ++ b) := by
  match l with
  | [] => simp [decodeOne] at h
  | b0 :: rest =>
    simp only [decodeOne] at h
    repeat' split at h
    all_goals first
      | exact Option.noConfusion h
      | injection h with h2
    all_goals subst h2
    all_goals simp_all [decodeOne, List.cons_append]
    all_goals split_ifs
    all_goals first
      | (exfalso; omega)
      | simp

/-- Unfolding: the empty byte list decodes to the empty text. -/
theorem utf8Decode_nil : utf8Decode [] = some [] := by
  simp [utf8Decode]

/-- Unfolding: a failed first step fails the whole decode. -/
theorem utf8Decode_cons_none (b0 : Nat) (rest : List Nat)
    (h : decodeOne (b0 :: rest) = none) : utf8Decode (b0 :: rest) = none := by
  rw [utf8Decode, h]

/-- Unfolding: a successful first step prepends its scalar value to the
decode of the remainder. -/
theorem utf8Decode_cons_some (b0 : Nat) (rest : List Nat) (c : Nat) (r : List Nat)
    (h : decodeOne (b0 :: rest) = some (c, r)) :
    utf8Decode (b0 :: rest) = (utf8Decode r).map (fun s => c :: s) := by
  rw [utf8Decode, h]

/-- The decoder is a homomorphism on complete prefixes: when `a` decodes on
its own (so no multi-byte sequence continues past its end), decoding `a ++ b`
decodes `a` first and then `b` — the content of "no multi-byte UTF-8
sequence straddles a window boundary". -/
theorem utf8Decode_append (a : List Nat) (b : List Nat) :
    ∀ (s : List Nat), utf8Decode a = some s →
      utf8Decode (a ++ b) = (utf8Decode b).map (fun t => s ++ t) := by
  induction a using utf8Decode.induct with
  | case1 =>
    intro s h
    rw [utf8Decode_nil] at h
    cases h
    simp
  | case2 b0 rest hd =>
    intro s h
    rw [utf8Decode_cons_none _ _ hd] at h
    exact Option.noConfusion h
  | case3 b0 rest c r hd ih =>
    intro s h
    rw [utf8Decode_cons_some _ _ _ _ hd] at h
    obtain ⟨s1, hs1, rfl⟩ := Option.map_eq_some'.mp h
    have hda := decodeOne_append (b0 :: rest) (c, r) b hd
    simp only [List.cons_append] at hda
    rw [List.cons_append, utf8Decode_cons_some _ _ _ _ hda, ih s1 hs1]
    simp only [Option.map_map]
    rfl

/-- The fragment sequence of `predict` is exactly the 16-byte windows of the
body, each decoded on its own, in order. -/
theorem predictFragments_eq_chunks (body : List Nat) :
    predictFragments body = (chunks16 body).map utf8Decode := by
  induction body using predictFragments.induct with
  | case1 => rw [predictFragments, chunks16]; simp
  | case2 x xs ih =>
    rw [predictFragments, chunks16]
    simp only [List.map_cons]
    rw [ih]

/-- When every 16-byte window decodes on its own, the windowed decodes
concatenate to the decode of the whole body. -/
theorem utf8Decode_chunks16_join (body : List Nat)
    (h : ∀ ch ∈ chunks16 body, (utf8Decode ch).isSome) :
    ∃ frags : List (List Nat),
      (chunks16 body).map utf8Decode = frags.map some ∧
      utf8Decode body = some frags.flatten := by
  induction body using chunks16.induct with
  | case1 => exact ⟨[], by rw [chunks16]; simp, by rw [utf8Decode_nil]; simp⟩
  | case2 x xs ih =>
    have hch : ((x :: xs).take 16) ∈ chunks16 (x :: xs) := by
      rw [chunks16]; exact List.mem_cons_self _ _
    obtain ⟨s, hs⟩ := Option.isSome_iff_exists.mp (h _ hch)
    have hrest : ∀ ch ∈ chunks16 ((x :: xs).drop 16), (utf8Decode ch).isSome := by
      intro ch hc
      exact h ch (by rw [chunks16]; exact List.mem_cons_of_mem _ hc)
    obtain ⟨frags, hmap, hjoin⟩ := ih hrest
    refine ⟨s :: frags, ?_, ?_⟩
    · rw [chunks16]
      simp only [List.map_cons, hs, hmap]
    · have key := utf8Decode_append ((x :: xs).take 16) ((x :: xs).drop 16) s hs
      rw [List.take_append_drop] at key
      rw [key, hjoin]
      simp

/-- C3: for every combination of the shared parameters, the JSON body built
by `predict_with_system_prompt` and the one built by `predict` differ in
field set by exactly the presence of the `system` field carrying the
system-role text (every other field name and value identical given identical
inputs), and both requests target the same `<server_url>/generate` endpoint
with the same timeout of 10 and the same streaming flag. -/
theorem claim_C3_system_field_diff (c : ChatClient) (system : String) (p : PredictParams) :
    predictWithSystemData system p = ("system", JVal.str system) :: predictData p ∧
    "system" ∉ (predictData p).map Prod.fst ∧
    predictWithSystemRequest c system p =
      { predictRequest c p with jsonBody := some (predictWithSystemData system p) } := by
  refine ⟨rfl, ?_, rfl⟩
  simp [predictData]

/-- C4: `search` sends exactly one POST, to `<server_url>/documentSearch`,
with JSON body `{content: prompt, num_docs: 4}` and timeout 30, and returns
the decoded JSON of the response unmodified (no schema validation — any
decoded value is passed through). -/
theorem claim_C4_search_shape (c : ChatClient) (prompt : String)
    (net : HttpRequest → Except NetErr NetResponse) :
    (search_run c prompt net).1 = [searchRequest c prompt] ∧
    (searchRequest c prompt).method = "POST" ∧
    (searchRequest c prompt).url = c.server_url ++ "/documentSearch" ∧
    (searchRequest c prompt).jsonBody =
      some [("content", JVal.str prompt), ("num_docs", JVal.int 4)] ∧
    (searchRequest c prompt).timeout = 30 ∧
    ∀ resp j, net (searchRequest c prompt) = .ok resp → resp.jsonResult = .ok j →
      (search_run c prompt net).2 = .ok j := by
  refine ⟨rfl, rfl, rfl, rfl, rfl, ?_⟩
  intro resp j hresp hj
  simp [search_run, hresp, hj]

/-- C4 witness: a concrete client, prompt and stub network. -/
theorem claim_C4_search_shape_witness :
    (search_run (ChatClient.make "http://server" "model") "x" netOkStub).2 =
      .ok (JVal.str "doc") :=
  (claim_C4_search_shape (ChatClient.make "http://server" "model") "x" netOkStub).2.2.2.2.2
    ⟨.ok (.str "doc")⟩ (.str "doc") rfl rfl

/-- C6: `search` fails exactly when the HTTP round-trip raises or the body
is not valid JSON; exactly one request is attempted (no retry), and on
success the decoded JSON is returned. -/
theorem claim_C6_search_failure_iff (c : ChatClient) (prompt : String)
    (net : HttpRequest → Except NetErr NetResponse) :
    (search_run c prompt net).1.length = 1 ∧
    ((search_run c prompt net).2.isErrorB = true ↔
      (net (searchRequest c prompt)).isErrorB = true ∨
      ∃ resp, net (searchRequest c prompt) = .ok resp ∧ resp.jsonResult.isErrorB = true) ∧
    ∀ resp j, net (searchRequest c prompt) = .ok resp → resp.jsonResult = .ok j →
      (search_run c prompt net).2 = .ok j := by
  refine ⟨rfl, ?_, ?_⟩
  · cases hnet : net (searchRequest c prompt) with
    | error e => simp [search_run, hnet, Except.isErrorB]
    | ok resp =>
      cases hj : resp.jsonResult with
      | error u =>
        simp only [search_run, hnet, hj, Except.isErrorB, true_iff]
        exact .inr ⟨resp, rfl, by simp [hj, Except.isErrorB]⟩
      | ok j =>
        simp [search_run, hnet, hj, Except.isErrorB]
  · intro resp j hresp hj
    simp [search_run, hresp, hj]

/-- C6 witness: with a network stub that times out, the concrete `search`
run fails. -/
theorem claim_C6_search_failure_iff_witness :
    (search_run (ChatClient.make "http://server" "model") "x" netFailStub).2.isErrorB = true :=
  (claim_C6_search_failure_iff (ChatClient.make "http://server" "model") "x"
    netFailStub).2.1.mpr (Or.inl rfl)

/-- C8: the client's three attributes are exactly the constructed values,
the `model_name` accessor returns the value supplied at construction, and
every operation in state-passing form leaves the client unchanged. -/
theorem claim_C8_immutable (server_url model_name prompt system : String)
    (p : PredictParams) (net : HttpRequest → Except NetErr NetResponse)
    (env : UploadEnv) (file_paths : List String) :
    (ChatClient.make server_url model_name).server_url = server_url ∧
    (ChatClient.make server_url model_name)._model_name = model_name ∧
    (ChatClient.make server_url model_name).default_model = "local" ∧
    (model_name_method (ChatClient.make server_url model_name)).1 = model_name ∧
    (model_name_method (ChatClient.make server_url model_name)).2 =
      ChatClient.make server_url model_name ∧
    (search_method (ChatClient.make server_url model_name) prompt net).2 =
      ChatClient.make server_url model_name ∧
    (predict_method (ChatClient.make server_url model_name) p).2 =
      ChatClient.make server_url model_name ∧
    (predict_with_system_method (ChatClient.make server_url model_name) system p).2 =
      ChatClient.make server_url model_name ∧
    (upload_method (ChatClient.make server_url model_name) env file_paths).2 =
      ChatClient.make server_url model_name :=
  ⟨rfl, rfl, rfl, rfl, rfl, rfl, rfl, rfl, rfl⟩

/-- C9: certificate verification is disabled exactly on the per-file upload
POSTs: `search`, `predict` and `predict_with_system_prompt` requests keep
the default `verify=True`, every upload request is sent `verify=False`. -/
theorem claim_C9_verify_only_upload (c : ChatClient) (prompt system fpath : String)
    (p : PredictParams) (mime : Option String) (env : UploadEnv) (file_paths : List String) :
    (searchRequest c prompt).verify = true ∧
    (predictRequest c p).verify = true ∧
    (predictWithSystemRequest c system p).verify = true ∧
    (uploadFileRequest c fpath mime).verify = false ∧
    ∀ r ∈ uploadRequests c env file_paths, r.verify = false := by
  refine ⟨rfl, rfl, rfl, rfl, ?_⟩
  intro r hr
  simp only [uploadRequests, List.mem_filterMap] at hr
  obtain ⟨e, _, hmatch⟩ := hr
  cases e with
  | openFile q => exact Option.noConfusion hmatch
  | closeFile q => exact Option.noConfusion hmatch
  | postFile q =>
    injection hmatch with h2
    subst h2
    rfl

/-- C10: `upload_documents` on the empty path list opens no file, issues no
request, and returns normally. -/
theorem claim_C10_upload_empty (env : UploadEnv) (c : ChatClient) :
    upload_documents env [] = ([], Except.ok ()) ∧ uploadRequests c env [] = [] :=
  ⟨rfl, rfl⟩

/-- C1 counterexample: with `requests.post` raising on file "b" (e.g. a
connection error), `upload_documents(["a", "b", "c"])` attempts only 2
POSTs, not 3: the uncaught exception aborts the loop and file "c" is never
opened or attempted. -/
theorem claim_C1_counterexample :
    (upload_documents envPostBFails ["a", "b", "c"]).1.countP UploadEvent.isPost = 2 ∧
    ¬ ((upload_documents envPostBFails ["a", "b", "c"]).1.countP UploadEvent.isPost
        = (["a", "b", "c"] : List String).length) ∧
    UploadEvent.openFile "c" ∉ (upload_documents envPostBFails ["a", "b", "c"]).1 ∧
    (upload_documents envPostBFails ["a", "b", "c"]).2 =
      .error (UploadErr.requestError "b") := by
  decide

/-- C1 (amended): `upload_documents` attempts one POST per element as long
as no exception occurs — when every open succeeds and no POST raises, the
number of attempted POSTs equals the length of the input list and the call
returns normally, regardless of the HTTP responses' contents (they are
discarded); an exception while processing file i, however, propagates and
prevents attempting file i+1. -/
theorem claim_C1_upload_attempts (env : UploadEnv) (file_paths : List String)
    (h : ∀ p ∈ file_paths, env.openOk p = true ∧ (env.postResult p).isOkB = true) :
    (upload_documents env file_paths).1.countP UploadEvent.isPost = file_paths.length ∧
    (upload_documents env file_paths).2 = .ok () := by
  induction file_paths with
  | nil => exact ⟨rfl, rfl⟩
  | cons p rest ih =>
    obtain ⟨hopen, hpost⟩ := h p (List.mem_cons_self _ _)
    obtain ⟨ih1, ih2⟩ := ih fun q hq => h q (List.mem_cons_of_mem _ hq)
    cases hp : env.postResult p with
    | error u => rw [hp] at hpost; exact Bool.noConfusion hpost
    | ok st =>
      simp [upload_documents, hopen, hp, List.countP_cons, UploadEvent.isPost, ih1, ih2]

/-- C1 witness: all three files go through when nothing raises. -/
theorem claim_C1_upload_attempts_witness :
    (upload_documents envAllOk ["a", "b", "c"]).1.countP UploadEvent.isPost =
      (["a", "b", "c"] : List String).length ∧
    (upload_documents envAllOk ["a", "b", "c"]).2 = .ok () :=
  claim_C1_upload_attempts envAllOk ["a", "b", "c"] (by decide)

/-- C7 counterexample: on a successful single-file upload, the file is
opened and the request completes, yet no close of the stream ever happens —
the handle is not released by the code (cf. the `consider-using-with`
suppression on line 110; release is left to the garbage collector). -/
theorem claim_C7_counterexample :
    UploadEvent.openFile "a" ∈ (upload_documents envAllOk ["a"]).1 ∧
    (upload_documents envAllOk ["a"]).2 = Except.ok () ∧
    UploadEvent.closeFile "a" ∉ (upload_documents envAllOk ["a"]).1 := by
  decide

/-- C7 (amended): `upload_documents` never closes any opened file stream —
neither after a completed request nor after a failure; the handle is leaked
to the garbage collector in every run. -/
theorem claim_C7_never_closes (env : UploadEnv) (file_paths : List String) :
    (upload_documents env file_paths).1.countP UploadEvent.isClose = 0 := by
  induction file_paths with
  | nil => rfl
  | cons p rest ih =>
    cases hopen : env.openOk p with
    | false => simp [upload_documents, hopen, UploadEvent.isClose]
    | true =>
      cases hp : env.postResult p with
      | error u => simp [upload_documents, hopen, hp, UploadEvent.isClose]
      | ok st =>
        simp [upload_documents, hopen, hp, List.countP_cons, UploadEvent.isClose, ih]

/-- C2: the stream from `predict` yields one fragment per successive
16-byte window, in arrival order, each window decoded as UTF-8 on its own;
and whenever no multi-byte UTF-8 sequence straddles a window boundary (each
window decodes by itself), the fragments concatenate to the whole response
body decoded as UTF-8. -/
theorem claim_C2_predict_stream (body : List Nat)
    (h : ∀ ch ∈ chunks16 body, (utf8Decode ch).isSome) :
    predictFragments body = (chunks16 body).map utf8Decode ∧
    ∃ frags : List (List Nat),
      predictFragments body = frags.map some ∧
      utf8Decode body = some frags.flatten := by
  refine ⟨predictFragments_eq_chunks body, ?_⟩
  obtain ⟨frags, hmap, hjoin⟩ := utf8Decode_chunks16_join body h
  exact ⟨frags, by rw [predictFragments_eq_chunks body, hmap], hjoin⟩

/-- C2 witness: the seventeen ASCII bytes of "Hello, world! Hi!" cut into a
16-byte window and a 1-byte window, and the two fragments concatenate to
the decode of the whole body. -/
theorem claim_C2_predict_stream_witness :
    ∃ frags : List (List Nat),
      predictFragments helloBytes = frags.map some ∧
      utf8Decode helloBytes = some frags.flatten :=
  (claim_C2_predict_stream helloBytes
    (by simp [helloBytes, chunks16, utf8Decode, decodeOne])).2

/-- C5 counterexample: the request issued by `predict` carries no
`accept: application/json` header — the call passes no headers at all, and
the library's own defaulting adds only `Content-Type: application/json`
(from `json=`) and the default accept `*/*`. -/
theorem claim_C5_counterexample :
    ("accept", "application/json") ∉
      (predictRequest (ChatClient.make "http://server" "model") pStub).headers ∧
    ("accept", "application/json") ∉
      effectiveHeaders (predictRequest (ChatClient.make "http://server" "model") pStub) ∧
    effectiveHeaders (predictRequest (ChatClient.make "http://server" "model") pStub) =
      [("Content-Type", "application/json"), ("accept", "*/*")] := by
  decide

/-- C5 (amended): `search` sends both `accept: application/json` and
`Content-Type: application/json`; every per-file upload request sends
`accept: application/json` (and has no JSON body); the two generate-family
calls pass no headers, so they carry `Content-Type: application/json` only
via the library's `json=` defaulting and do not carry
`accept: application/json` (the library default accept `*/*` applies). -/
theorem claim_C5_headers (c : ChatClient) (prompt system fpath : String)
    (p : PredictParams) (mime : Option String) :
    ("accept", "application/json") ∈ (searchRequest c prompt).headers ∧
    ("Content-Type", "application/json") ∈ (searchRequest c prompt).headers ∧
    effectiveHeaders (searchRequest c prompt) = (searchRequest c prompt).headers ∧
    ("accept", "application/json") ∈ (uploadFileRequest c fpath mime).headers ∧
    (uploadFileRequest c fpath mime).jsonBody = none ∧
    (predictRequest c p).headers = [] ∧
    effectiveHeaders (predictRequest c p) =
      [("Content-Type", "application/json"), ("accept", "*/*")] ∧
    ("accept", "application/json") ∉ effectiveHeaders (predictRequest c p) ∧
    (predictWithSystemRequest c system p).headers = [] ∧
    effectiveHeaders (predictWithSystemRequest c system p) =
      [("Content-Type", "application/json"), ("accept", "*/*")] ∧
    ("accept", "application/json") ∉ effectiveHeaders (predictWithSystemRequest c system p) := by
  refine ⟨?_, ?_, ?_, ?_, rfl, rfl, rfl, ?_, rfl, rfl, ?_⟩ <;>
    simp [searchRequest, uploadFileRequest, predictRequest, predictWithSystemRequest,
      effectiveHeaders]

/-- C3 witness: the two bodies at one concrete parameter set. -/
theorem claim_C3_system_field_diff_witness :
    predictWithSystemData "sys" pStub = ("system", JVal.str "sys") :: predictData pStub :=
  (claim_C3_system_field_diff (ChatClient.make "http://server" "model") "sys" pStub).1

/-- C5 witness: one concrete search request carries the accept header and
one concrete generate request does not. -/
theorem claim_C5_headers_witness :
    ("accept", "application/json") ∈
      (searchRequest (ChatClient.make "http://server" "model") "x").headers ∧
    ("accept", "application/json") ∉
      effectiveHeaders (predictRequest (ChatClient.make "http://server" "model") pStub) :=
  ⟨(claim_C5_headers (ChatClient.make "http://server" "model") "x" "sys" "a" pStub none).1,
   (claim_C5_headers (ChatClient.make "http://server" "model") "x" "sys" "a" pStub
      none).2.2.2.2.2.2.2.1⟩

/-- C9 witness: the one request of a concrete single-file upload run has
verification disabled. -/
theorem claim_C9_verify_only_upload_witness :
    (uploadFileRequest (ChatClient.make "http://server" "model") "a" none).verify = false :=
  (claim_C9_verify_only_upload (ChatClient.make "http://server" "model") "x" "sys" "a"
      pStub none envAllOk ["a"]).2.2.2.2
    (uploadFileRequest (ChatClient.make "http://server" "model") "a" none)
    (by decide)
